import Mathlib

/-!
Shallow embedding of the error-correcting token pipeline and annotation
assembler of GreynirCorrect, translated from
src/src/reynir_correct/errtokenizer.py and src/src/reynir_correct/checker.py,
together with theorems settling the specification claims about them.

Modelling conventions:
* Python strings are `String`; a tokenizer token whose `txt` is Python `None`
  (sentence delimiters) is modelled with `txt = ""` - both are falsy in the
  guards of `parse_errors`, the one observable difference (the `is not None`
  guard of the split-compound rule) is noted at `split_cond`.
* A token's structured meaning `val` is a `List String`; Python `None` and the
  empty meaning list are both modelled as `[]` (both falsy in `not token.val`).
* `strLower` (a character-level map) models Python `str.lower` (adequate for
  the properties proved here, which never depend on the lowering of a
  specific non-ASCII character).
* Python generator phases become functions from token lists to
  `Except String` of token lists; an uncaught Python exception is modelled as
  `Except.error` carrying the exception rendered as a string.
-/

namespace GreynirCorrect

/-- Token kind code of word tokens in the external tokenizer (`tokenizer.TOK`):
`TOK.WORD = 6`.  Only this kind is inspected by the embedded code. -/
def TOK.WORD : Nat := 6

/-- Data carried by an `Error` instance of errtokenizer.py: every concrete
subclass (`CompoundError`, `UnknownWordError`, `SpellingError`) stores a
category-prefixed code (built in its constructor) and a description text. -/
structure Error where
  code : String
  description : String
deriving Repr, DecidableEq

/-- Constructor `CompoundError(code, txt)`: compound error codes start with
"C"; the description is the constructor's `txt` argument. -/
def CompoundError (code txt : String) : Error :=
  ⟨"C" ++ code, txt⟩

/-- Constructor `UnknownWordError(code, txt)`: codes start with "U". -/
def UnknownWordError (code txt : String) : Error :=
  ⟨"U" ++ code, txt⟩

/-- Constructor `SpellingError(code, txt)`: codes start with "S". -/
def SpellingError (code txt : String) : Error :=
  ⟨"S" ++ code, txt⟩

/-- The `CorrectToken` class of errtokenizer.py: `__slots__` is
`(kind, txt, val, _err)` and the class declares no other attribute
(in particular no `error_span`).  The `_err` slot is modelled as `err`. -/
structure CorrectToken where
  kind : Nat
  txt : String
  val : List String
  err : Option Error
deriving Repr, DecidableEq

/-- `CorrectToken.from_token`: wrap a raw token in a `CorrectToken`.  Only
`kind`, `txt` and `val` are read from the argument; `_err` starts as `None`,
so an error attached to the argument is not carried over. -/
def CorrectToken.from_token (t : CorrectToken) : CorrectToken :=
  ⟨t.kind, t.txt, t.val, none⟩

/-- `CorrectToken.word(txt, val)`: create a wrapped word token. -/
def CorrectToken.word (txt : String) (val : List String) : CorrectToken :=
  ⟨TOK.WORD, txt, val, none⟩

/-- `CorrectToken.set_error`: associate an Error instance with this token.
The assignment `self._err = err` is unconditional. -/
def CorrectToken.set_error (t : CorrectToken) (e : Error) : CorrectToken :=
  { t with err := some e }

/-- `CorrectToken.error_code`: the code of the associated error, or `""`. -/
def CorrectToken.error_code (t : CorrectToken) : String :=
  match t.err with
  | none => ""
  | some e => e.code

/-- The single-token branch of `CorrectToken.copy_error`:
`self._err = other._err` (unconditional assignment). -/
def CorrectToken.copy_error_from (self other : CorrectToken) : CorrectToken :=
  { self with err := other.err }

/-- The list branch of `CorrectToken.copy_error`: copy each list element's
error in turn (each copy overwrites `self._err`) and stop as soon as
`self._err is not None` - so the first error found in the list is the one
retained. -/
def CorrectToken.copy_error_list (self : CorrectToken) :
    List CorrectToken → CorrectToken
  | [] => self
  | t :: ts =>
    let s := self.copy_error_from t
    if s.err.isSome then s else s.copy_error_list ts

/-- `CorrectToken.copy_error(other)`: `other` is a single `CorrectToken` or a
list of them (`isinstance` dispatch in the source). -/
def CorrectToken.copy_error (self : CorrectToken) :
    CorrectToken ⊕ List CorrectToken → CorrectToken
  | Sum.inl t => self.copy_error_from t
  | Sum.inr ts => self.copy_error_list ts

/-- Modelled from the spec: the Correction Dictionaries ("immutable mappings
loaded once per process lifetime: duplicate-allow set, wrong-compound mapping,
split-compound set, unique-error mapping, malformed-form mapping").  Their
loading code (settings.py: `AllowedMultiples`, `WrongCompounds`,
`SplitCompounds`, `UniqueErrors`, `ErrorForms`) is part of the repository but
not under src/, so the mappings are carried as explicit finite association
data and the phases are parameterized over them. -/
structure Dicts where
  allowed_multiples : List String
  wrong_compounds : List (String × List String)
  split_compounds : List (String × String)
  unique_errors : List (String × List String)
  error_forms : List (String × String)

/-- Association-list lookup, modelling Python `dict` membership and
indexing on string keys. -/
def lookupDict {α : Type} (m : List (String × α)) (k : String) : Option α :=
  (m.find? (fun p => p.1 == k)).map (fun p => p.2)

/-- Python `str.lower()`: lowercase each character.  (Character-level map,
adequate for the properties proved here.) -/
def strLower (s : String) : String :=
  ⟨s.data.map Char.toLower⟩

/-- Python `str.startswith(p)`, as a character-level prefix test. -/
def strStartsWith (s p : String) : Bool :=
  p.data.isPrefixOf s.data

/-- Guard of the duplicate-word rule of `parse_errors`, in the source's
conjunct order: both texts truthy (non-empty), case-insensitively equal
texts, lowercased text not in the duplicate-allow set, and the current
token - only the current token - of word kind. -/
def dup_cond (d : Dicts) (token next_token : CorrectToken) : Bool :=
  token.txt != "" && next_token.txt != "" &&
    strLower token.txt == strLower next_token.txt &&
    !(d.allowed_multiples.contains (strLower token.txt)) &&
    token.kind == TOK.WORD

/-- The replacement token built when the duplicate-word rule fires:
`CorrectToken.word(token.txt)` (so `val` is reset) carrying
`CompoundError("001", ...)`. -/
def dup_replacement (token : CorrectToken) : CorrectToken :=
  (CorrectToken.word token.txt []).set_error
    (CompoundError "001"
      ("Endurtekið orð ('" ++ token.txt ++ "') var fellt burt"))

/-- Guard of the wrong-compound rule: truthy text whose lowering is a key of
the wrong-compound dictionary. -/
def wrong_cond (d : Dicts) (token : CorrectToken) : Bool :=
  token.txt != "" && (lookupDict d.wrong_compounds (strLower token.txt)).isSome

/-- The tokens emitted when the wrong-compound rule fires: one word token per
phrase part, each carrying `CompoundError("002", ...)` naming the original
text. -/
def wrong_tokens (d : Dicts) (token : CorrectToken) : List CorrectToken :=
  ((lookupDict d.wrong_compounds (strLower token.txt)).getD []).map
    (fun phrase_part =>
      (CorrectToken.word phrase_part []).set_error
        (CompoundError "002" ("Orðinu '" ++ token.txt ++ "' var skipt upp")))

/-- Guard of the split-compound rule.  The source guards with
`txt is not None` (not truthiness) before the set membership; here the
Python-`None` text is modelled as `""`, so the membership test is reached
directly - identical behaviour as long as the split-compound set has no
empty component, which the spec's word mappings guarantee. -/
def split_cond (d : Dicts) (token next_token : CorrectToken) : Bool :=
  d.split_compounds.contains (strLower token.txt, strLower next_token.txt)

/-- The united token built when the split-compound rule fires: a word token
whose text is the concatenation, carrying `CompoundError("003", ...)` naming
both original words. -/
def split_replacement (token next_token : CorrectToken) : CorrectToken :=
  (CorrectToken.word (token.txt ++ next_token.txt) []).set_error
    (CompoundError "003"
      ("Orðin '" ++ token.txt ++ " " ++ next_token.txt ++
        "' voru sameinuð í eitt"))

/-- The `while True` loop of `parse_errors`, with `token` the buffered
lookahead-by-one token (already wrapped) and the list the not-yet-read rest
of the stream.  At stream exhaustion (`StopIteration` on `get()`) the final
buffered token is yielded (`if token:` - a `CorrectToken` instance is always
truthy, having neither `__bool__` nor `__len__`). -/
def pe_loop (d : Dicts) (token : CorrectToken) :
    List CorrectToken → List CorrectToken
  | [] => [token]
  | nt :: rest =>
    let next_token := CorrectToken.from_token nt
    if dup_cond d token next_token then
      pe_loop d (dup_replacement token) rest
    else if wrong_cond d token then
      wrong_tokens d token ++ pe_loop d next_token rest
    else if split_cond d token next_token then
      pe_loop d (split_replacement token next_token) rest
    else
      token :: pe_loop d next_token rest

/-- `parse_errors(token_stream)`: the Token Correction Phase.  On the empty
stream the very first `token = get()` raises `StopIteration`, the handler
then evaluates `if token:` with the local `token` never assigned, and the
generator raises `UnboundLocalError`. -/
def parse_errors (d : Dicts) : List CorrectToken → Except String (List CorrectToken)
  | [] =>
    Except.error
      "UnboundLocalError: local variable 'token' referenced before assignment"
  | t :: rest => Except.ok (pe_loop d (CorrectToken.from_token t) rest)

/-- `_Correct_TOK.Word(w, m, token)`: build a `CorrectToken.word(w, m)` and,
when `token` is given (a previously generated token or a list of tokens),
preserve its associated error through `copy_error`. -/
def Correct_TOK.Word (w : String) (m : List String)
    (token : Option (CorrectToken ⊕ List CorrectToken)) : CorrectToken :=
  let ct := CorrectToken.word w m
  match token with
  | none => ct
  | some src => ct.copy_error src

/-- The `(errkind, corrected)` selection of `lookup_unknown_words`, in the
source's branch order: exact (case-sensitive) key test of the raw text
against the unique-error dictionary (errkind 1), then against the
malformed-form dictionary (errkind 3), else the spelling corrector's
proposal when it differs from the input (errkind 2); errkind 0 when none
applies.  `correct` models the external `Corrector.correct` (spelling.py is
repository code not under src/; the spec types it as word form to proposed
replacement). -/
def errkind_corrected (d : Dicts) (correct : String → String) (txt : String) :
    Nat × List String :=
  match lookupDict d.unique_errors txt with
  | some corrected => (1, corrected)
  | none =>
    match lookupDict d.error_forms txt with
    | some form => (3, [form])
    | none =>
      let corrected := correct txt
      if corrected != txt then (2, [corrected]) else (0, [])

/-- The per-token body of the `for token in token_stream` loop of
`lookup_unknown_words`.  When a correction is found (`errkind != 0`) the
source evaluates `db.lookup_word(corrected_word, at_sentence_start,
auto_uppercase)` for the first corrected word - but `db` is a free name,
neither defined nor imported anywhere in errtokenizer.py, so the lookup
raises `NameError` before any replacement token is yielded.  When no
correction is found the token is re-annotated with `UnknownWordError("001",
...)` (an unconditional `set_error`) and yielded unchanged otherwise. -/
def luw_step (d : Dicts) (correct : String → String) (token : CorrectToken) :
    Except String (List CorrectToken) :=
  if token.kind == TOK.WORD && token.val.isEmpty then
    if (errkind_corrected d correct token.txt).1 != 0 then
      Except.error "NameError: name 'db' is not defined"
    else
      Except.ok
        [token.set_error
          (UnknownWordError "001" ("Óþekkt orð: '" ++ token.txt ++ "'"))]
  else
    Except.ok [token]

/-- `lookup_unknown_words(corrector, token_ctor, token_stream,
auto_uppercase)`: the Unknown-Word Resolution Phase.  `auto_uppercase` (and
the constant `at_sentence_start = False`) only feed the `db.lookup_word`
call, which never returns (see `luw_step`). -/
def lookup_unknown_words (d : Dicts) (correct : String → String)
    (auto_uppercase : Bool) : List CorrectToken → Except String (List CorrectToken)
  | [] => Except.ok []
  | t :: ts => do
    let hd ← luw_step d correct t
    let tl ← lookup_unknown_words d correct auto_uppercase ts
    Except.ok (hd ++ tl)

/-- The `Annotation` class of checker.py: an annotated span
`[start, end]` (inclusive, in token indices) with a code and a description
text.  Python ints are modelled as `Int` (the assembler can produce
`end = -1` on a zero-token sentence).  The `end` attribute is named `stop`
here because `end` is a Lean keyword. -/
structure Annotation where
  start : Int
  stop : Int
  code : String
  text : String
deriving Repr, DecidableEq

/-- The sort key contract of `ReynirCorrect.annotate`:
`ann.sort(key=lambda a: (a.start, -a.end))`, i.e. lexicographic
less-or-equal on `(start, -end)`. -/
def annLE (a b : Annotation) : Prop :=
  a.start < b.start ∨ (a.start = b.start ∧ -a.stop ≤ -b.stop)

instance : DecidableRel annLE := fun a b => by
  unfold annLE
  infer_instance

instance : IsTotal Annotation annLE :=
  ⟨fun a b => by
    unfold annLE
    rcases lt_trichotomy a.start b.start with h | h | h
    · exact Or.inl (Or.inl h)
    · rcases le_total (-a.stop) (-b.stop) with h2 | h2
      · exact Or.inl (Or.inr ⟨h, h2⟩)
      · exact Or.inr (Or.inr ⟨h.symm, h2⟩)
    · exact Or.inr (Or.inl h)⟩

instance : IsTrans Annotation annLE :=
  ⟨fun a b c hab hbc => by
    unfold annLE at *
    rcases hab with h1 | ⟨h1, h1'⟩ <;> rcases hbc with h2 | ⟨h2, h2'⟩
    · exact Or.inl (h1.trans h2)
    · exact Or.inl (h2 ▸ h1)
    · exact Or.inl (h1 ▸ h2)
    · exact Or.inr ⟨h1.trans h2, le_trans h1' h2'⟩⟩

/-- The stable sort of the annotation list: Python's `list.sort` with key
`(a.start, -a.end)`, modelled by insertion sort on `annLE` (both are stable
sorts for the same total preorder, so they produce the same list). -/
def annSortList (l : List Annotation) : List Annotation :=
  List.insertionSort annLE l

/-- The token-annotation pass of `ReynirCorrect.annotate`: for each token
(in original input order) with a truthy `error_code`, the source appends
`Annotation(start=ix, end=ix + t.error_span - 1, code=t.error_code,
text=t.error_description)` - but `CorrectToken` declares no attribute or
property `error_span` (its `__slots__` is `(kind, txt, val, _err)`), so the
attribute access raises `AttributeError` for every error-carrying token. -/
def tokenAnnotations (ix : Nat) : List CorrectToken → Except String (List Annotation)
  | [] => Except.ok []
  | t :: ts =>
    if t.error_code != "" then
      Except.error
        "AttributeError: 'CorrectToken' object has no attribute 'error_span'"
    else
      tokenAnnotations (ix + 1) ts

/-- A sentence as `ReynirCorrect.annotate` sees it: its token list and
whether parsing/reduction produced a deep tree.  The deep tree itself is an
external parse-forest object; what the Grammar Error Finder extracts from it
is passed to `annotate` as an explicit annotation list. -/
structure Sentence where
  tokens : List CorrectToken
  deep_tree : Option Unit

/-- The fixed whole-sentence fallback annotation (code E001) appended when
the sentence has no deep tree: span `[0, len(tokens) - 1]`. -/
def unparsableAnn (numTokens : Nat) : Annotation :=
  ⟨0, (numTokens : Int) - 1, "E001", "Málsgreinin fellur ekki að reglum"⟩

/-- `ReynirCorrect.annotate(sent)`: token-level annotations first, then
either the E001 fallback (no deep tree - the Grammar Error Finder is not
run, so the result does not depend on `finder_anns`) or the annotations the
`ErrorFinder` walk appends (`finder_anns`, in whatever order the walk
produced them), finally the stable sort by `(start, -end)`. -/
def annotate (finder_anns : List Annotation) (sent : Sentence) :
    Except String (List Annotation) :=
  match tokenAnnotations 0 sent.tokens with
  | Except.error e => Except.error e
  | Except.ok ann =>
    match sent.deep_tree with
    | none => Except.ok (annSortList (ann ++ [unparsableAnn sent.tokens.length]))
    | some _ => Except.ok (annSortList (ann ++ finder_anns))

/-- A nonterminal of the grammar as `ErrorFinder._visit_nonterminal` reads
it: its name, whether it is optional, and whether the grammar author tagged
it with `$tag(error)`. -/
structure Nonterminal where
  name : String
  is_optional : Bool
  has_error_tag : Bool

/-- A nonterminal node of the parse forest as `_visit_nonterminal` reads it:
interior flag, its nonterminal, and `_node_span` - the indices of the first
and last token covered by the node. -/
structure NTNode where
  is_interior : Bool
  nonterminal : Nonterminal
  span : Nat × Nat

/-- Split of a character list at its first underscore: `none` when there is
no underscore, else the characters before it and after it. -/
def splitFirstUnd : List Char → Option (List Char × List Char)
  | [] => none
  | c :: cs =>
    if c = '_' then some ([], cs)
    else (splitFirstUnd cs).map (fun p => (c :: p.1, p.2))

/-- The name split of `_visit_nonterminal`: `if "_" in name: ix =
name.index("_"); variants = name[ix + 1:]; name = name[:ix]` - the base name
before the first underscore, and the variant suffix after it. -/
def splitVariants (name : String) : String × String :=
  match splitFirstUnd name.data with
  | none => (name, "")
  | some p => (⟨p.1⟩, ⟨p.2⟩)

/-- The `_TEXT_FUNC` dictionary of `ErrorFinder`: description generators for
the known error-tagged nonterminal base names, each taking the spanned text
and the variant suffix. -/
def textFunc (name : String) : Option (String → String → String) :=
  if name == "VillaHeldur" then
    some (fun txt _ => "'" ++ txt ++ "' er ofaukið")
  else if name == "VillaVístAð" then
    some (fun txt _ => "'" ++ txt ++ "' á sennilega að vera 'fyrst að'")
  else if name == "VillaFráÞvíAð" then
    some (fun txt _ => "'" ++ txt ++ "' á sennilega að vera '" ++ txt ++ " að'")
  else if name == "VillaAnnaðhvort" then
    some (fun txt _ => "Í stað '" ++ txt ++ "' á að standa 'annað hvort'")
  else if name == "VillaAnnaðHvort" then
    some (fun txt _ => "Í stað '" ++ txt ++ "' á að standa 'annaðhvort'")
  else if name == "VillaFjöldiHluti" then
    some (fun txt _ =>
      "Sögn sem á við '" ++ txt ++ "' á að vera í eintölu, ekki fleirtölu")
  else if name == "VillaEinnAf" then
    some (fun txt _ =>
      "Sögn sem á við '" ++ txt ++ "' á að vera í eintölu, ekki fleirtölu")
  else if name == "VillaAð" then
    some (fun txt _ => "'" ++ txt ++ "' er sennilega ofaukið")
  else if name == "VillaÞóAð" then
    some (fun txt _ =>
      "'" ++ txt ++ "' á sennilega að vera '" ++ txt ++ " að' (eða 'þótt')")
  else
    none

/-- `ErrorFinder._visit_nonterminal(level, node)`: the annotations the walk
appends for one nonterminal node.  Interior or optional nodes yield nothing;
an error-tagged node yields one annotation spanning its covered tokens, with
code `"P_NT_" +` the base name (before the first `"_"`) with a leading
`"Villa"` cut off, and a text from `_TEXT_FUNC` or the generic fallback.
`cspaces` models the external `reynir.correct_spaces`. -/
def visit_nonterminal (cspaces : String → String) (tokens : List CorrectToken)
    (node : NTNode) : List Annotation :=
  if node.is_interior || node.nonterminal.is_optional then
    []
  else if node.nonterminal.has_error_tag then
    let start := node.span.1
    let stop := node.span.2
    let span_text := cspaces (String.intercalate " "
      (((tokens.take (stop + 1)).drop start).filterMap
        (fun t => if t.txt != "" then some t.txt else none)))
    let nv := splitVariants node.nonterminal.name
    let name := nv.1
    let variants := nv.2
    let code := "P_NT_" ++ (if strStartsWith name "Villa" then name.drop 5 else name)
    let ann_text :=
      match textFunc name with
      | some f => f span_text variants
      | none =>
        "'" ++ span_text ++ "' er líklega rangt (regla " ++
          node.nonterminal.name ++ ")"
    [⟨(start : Int), (stop : Int), code, ann_text⟩]
  else
    []

/-- No correction pattern at a pair of adjacent stream positions: the
duplicate-word, wrong-compound and split-compound guards are all false
there.  `List.Chain'` of this relation over a stream says no rule of the
Token Correction Phase can fire on it (the wrong-compound guard is only ever
evaluated on a token that has a successor). -/
def noPat (d : Dicts) (t u : CorrectToken) : Prop :=
  dup_cond d t u = false ∧ wrong_cond d t = false ∧ split_cond d t u = false

instance (d : Dicts) : DecidableRel (noPat d) := fun t u => by
  unfold noPat
  infer_instance

/-! Helper lemmas shared by the claim theorems. -/

/-- A token without an associated error has the empty error code. -/
theorem error_code_eq_empty {t : CorrectToken} (h : t.err = none) :
    t.error_code = "" := by
  simp [CorrectToken.error_code, h]

/-- The token-annotation pass succeeds with no annotations when no token of
the list carries an error. -/
theorem tokenAnnotations_of_no_err :
    ∀ (ix : Nat) (ts : List CorrectToken), (∀ t ∈ ts, t.err = none) →
      tokenAnnotations ix ts = Except.ok []
  | _, [], _ => rfl
  | ix, t :: ts, h => by
    have ht := h t (List.mem_cons_self t ts)
    have hts := tokenAnnotations_of_no_err (ix + 1) ts
      (fun u hu => h u (List.mem_cons_of_mem t hu))
    simp [tokenAnnotations, error_code_eq_empty ht, hts]

/-- C1: the claim states that a token carrying an error with no declared
span contributes one Annotation spanning exactly its own index, the
operation returning normally.  The code instead raises: `annotate` reads
`t.error_span`, an attribute `CorrectToken` never defines, so the assembly
fails with an `AttributeError` on the very first error-carrying token.  This
theorem evaluates the embedded `annotate` at such a failing input: one word
token carrying a Compound error, in a successfully parsed sentence. -/
theorem C1_error_span_attribute_error :
    annotate []
        ⟨[⟨TOK.WORD, "og", [],
          some (CompoundError "001" "Endurtekið orð ('og') var fellt burt")⟩],
          some ()⟩ =
      Except.error
        "AttributeError: 'CorrectToken' object has no attribute 'error_span'" := by
  rfl

/-- C2 counterexample: a sentence with no deep tree whose single token
carries an error.  The claim predicts exactly one E001 Annotation spanning
the whole sentence; the embedded `annotate` instead fails (the token-level
pass hits the undefined `error_span` attribute), so no annotation list at
all is produced at this input. -/
theorem C2_counterexample :
    annotate []
        ⟨[⟨TOK.WORD, "zzz", [],
          some (UnknownWordError "001" "Óþekkt orð: 'zzz'")⟩], none⟩ =
      Except.error
        "AttributeError: 'CorrectToken' object has no attribute 'error_span'" := by
  rfl

/-- C2 (amended): for every sentence with no deep tree none of whose tokens
carries an error, `annotate` returns exactly one Annotation - start 0, end
token count minus 1, the fixed code E001 - and the Grammar Error Finder is
never consulted: the result is the same for every `finder_anns` list. -/
theorem C2_unparsable_single_annotation (finder_anns : List Annotation)
    (sent : Sentence) (hdt : sent.deep_tree = none)
    (herr : ∀ t ∈ sent.tokens, t.err = none) :
    annotate finder_anns sent =
      Except.ok
        [⟨0, (sent.tokens.length : Int) - 1, "E001",
          "Málsgreinin fellur ekki að reglum"⟩] := by
  unfold annotate
  rw [tokenAnnotations_of_no_err 0 sent.tokens herr, hdt]
  simp [annSortList, unparsableAnn]

/-- C2 witness: the amended theorem applied to a concrete two-token
error-free sentence with no deep tree, under a nonempty (and ignored)
finder annotation list. -/
theorem C2_witness :
    annotate [⟨5, 5, "X", "x"⟩]
        ⟨[⟨TOK.WORD, "a", [], none⟩, ⟨TOK.WORD, "b", [], none⟩], none⟩ =
      Except.ok [⟨0, 1, "E001", "Málsgreinin fellur ekki að reglum"⟩] :=
  C2_unparsable_single_annotation [⟨5, 5, "X", "x"⟩]
    ⟨[⟨TOK.WORD, "a", [], none⟩, ⟨TOK.WORD, "b", [], none⟩], none⟩
    rfl (by decide)

/-- C4: the claim states that whenever a correction is found the phase
returns normally, yielding replacement tokens looked up in the lexicon with
only the first carrying the Spelling error.  The code instead raises: the
lexicon handle `db` in `lookup_unknown_words` is a free name, never defined
or imported in errtokenizer.py, so the first successful correction raises a
`NameError` before any replacement token is yielded.  This theorem evaluates
the embedded phase at such a failing input: a unique-error dictionary entry
exactly matching the unknown word. -/
theorem C4_db_name_error :
    lookup_unknown_words ⟨[], [], [], [("talva", ["tölva"])], []⟩
        (fun s => s) false [⟨TOK.WORD, "talva", [], none⟩] =
      Except.error "NameError: name 'db' is not defined" := by
  rfl

/-- C9: the claim states that the Token Correction Phase terminates normally
on every finite stream, the empty stream included, yielding the empty output
stream for the empty input.  On the empty stream the code instead raises:
the very first `token = get()` raises `StopIteration` before `token` is ever
assigned, and the handler's `if token:` then raises `UnboundLocalError`.
This theorem evaluates the embedded phase at the failing input (the empty
stream, with every dictionary empty). -/
theorem C9_empty_stream_raises :
    parse_errors ⟨[], [], [], [], []⟩ [] =
      Except.error
        "UnboundLocalError: local variable 'token' referenced before assignment" := by
  rfl

/-- C3 (amended): for every word-kind token left without recognized meaning,
the Unknown-Word Resolution Phase selects a correction strategy in strict
priority order, stopping at the first success, by exact (case-sensitive) key
test of the raw text: unique-error dictionary (Spelling kind 1), then
malformed-form dictionary (Spelling kind 3), then the spelling corrector when
its proposal differs from the input (Spelling kind 2); and if none applies,
the token is yielded unchanged except for a re-annotation with an
UnknownWord error, code U001. -/
theorem C3_selection_priority (d : Dicts) (correct : String → String)
    (t : CorrectToken) (hk : t.kind = TOK.WORD) (hv : t.val = []) :
    ((errkind_corrected d correct t.txt).1 = 1 ↔
      (lookupDict d.unique_errors t.txt).isSome) ∧
    ((errkind_corrected d correct t.txt).1 = 3 ↔
      lookupDict d.unique_errors t.txt = none ∧
        (lookupDict d.error_forms t.txt).isSome) ∧
    ((errkind_corrected d correct t.txt).1 = 2 ↔
      lookupDict d.unique_errors t.txt = none ∧
        lookupDict d.error_forms t.txt = none ∧ correct t.txt ≠ t.txt) ∧
    ((errkind_corrected d correct t.txt).1 = 0 →
      luw_step d correct t =
        Except.ok [t.set_error
          (UnknownWordError "001" ("Óþekkt orð: '" ++ t.txt ++ "'"))]) := by
  rcases h1 : lookupDict d.unique_errors t.txt with _ | u
  · rcases h2 : lookupDict d.error_forms t.txt with _ | f
    · by_cases h3 : correct t.txt = t.txt
      · refine ⟨?_, ?_, ?_, ?_⟩ <;>
          simp [errkind_corrected, h1, h2, h3, luw_step, hk, hv]
      · refine ⟨?_, ?_, ?_, ?_⟩ <;>
          simp [errkind_corrected, h1, h2, h3, luw_step, hk, hv]
    · refine ⟨?_, ?_, ?_, ?_⟩ <;>
        simp [errkind_corrected, h1, h2, luw_step, hk, hv]
  · refine ⟨?_, ?_, ?_, ?_⟩ <;>
      simp [errkind_corrected, h1, luw_step, hk, hv]

/-- C3 counterexample: the claim says the unique-error dictionary is matched
lowercase-insensitively on the raw text.  With a unique-error dictionary
holding the key "talva", the token "Talva" (whose lowering is exactly that
key) is nevertheless not corrected: the code tests the raw text by exact
case-sensitive membership, finds nothing, and yields the token with an
UnknownWord U001 error instead of the predicted Spelling 001 correction. -/
theorem C3_counterexample :
    lookup_unknown_words ⟨[], [], [], [("talva", ["tölva"])], []⟩
        (fun s => s) false [⟨TOK.WORD, "Talva", [], none⟩] =
      Except.ok [⟨TOK.WORD, "Talva", [], some ⟨"U001", "Óþekkt orð: 'Talva'"⟩⟩] ∧
    strLower "Talva" = "talva" ∧
    (lookupDict ([("talva", ["tölva"])] : List (String × List String))
      (strLower "Talva")).isSome = true := by
  refine ⟨rfl, rfl, rfl⟩

/-- C3 witness: the amended theorem applied to a concrete unknown word token
matched by no strategy; the phase yields it unchanged carrying U001. -/
theorem C3_witness :
    luw_step ⟨[], [], [], [], []⟩ (fun s => s) ⟨TOK.WORD, "xyzzy", [], none⟩ =
      Except.ok [⟨TOK.WORD, "xyzzy", [], some ⟨"U001", "Óþekkt orð: 'xyzzy'"⟩⟩] := by
  have h := (C3_selection_priority ⟨[], [], [], [], []⟩ (fun s => s)
    ⟨TOK.WORD, "xyzzy", [], none⟩ rfl rfl).2.2.2 rfl
  exact h

/-- Wrapping a token preserves everything the `parse_errors` guards read, so
the duplicate-word guard is unchanged by `from_token`. -/
theorem dup_cond_from_token (d : Dicts) (t u : CorrectToken) :
    dup_cond d t (CorrectToken.from_token u) = dup_cond d t u :=
  rfl

/-- C5 (amended): the duplicate-word rule fires exactly when both texts are
non-empty, the texts are case-insensitively equal, the lowercased text is
not in the duplicate-allow set, and the current token - the lookahead's
kind is not examined - is a word token; when it fires, the pair is replaced
by a single surviving word token with the current token's text, carrying
Compound error C001 naming the repeated word. -/
theorem C5_duplicate_rule (d : Dicts) (t u : CorrectToken)
    (rest : List CorrectToken) :
    (dup_cond d t u = true ↔
      (t.txt ≠ "" ∧ u.txt ≠ "" ∧ strLower t.txt = strLower u.txt ∧
        d.allowed_multiples.contains (strLower t.txt) = false ∧
        t.kind = TOK.WORD)) ∧
    (dup_cond d t u = true →
      pe_loop d t (u :: rest) = pe_loop d (dup_replacement t) rest ∧
      dup_replacement t =
        ⟨TOK.WORD, t.txt, [],
          some ⟨"C001",
            "Endurtekið orð ('" ++ t.txt ++ "') var fellt burt"⟩⟩) := by
  constructor
  · simp only [dup_cond, Bool.and_eq_true, bne_iff_ne, ne_eq, beq_iff_eq,
      Bool.not_eq_true']
    tauto
  · intro h
    refine ⟨?_, rfl⟩
    rw [pe_loop, dup_cond_from_token, h]
    simp

/-- C5 witness: the claim's example - word tokens "og", "og", "fór" with an
empty duplicate-allow set - evaluated through the amended rule: the
duplicate is dropped and the surviving first token carries C001 citing
"og". -/
theorem C5_witness :
    parse_errors ⟨[], [], [], [], []⟩
        [⟨TOK.WORD, "og", [], none⟩, ⟨TOK.WORD, "og", [], none⟩,
          ⟨TOK.WORD, "fór", [], none⟩] =
      Except.ok
        [⟨TOK.WORD, "og", [],
          some ⟨"C001", "Endurtekið orð ('og') var fellt burt"⟩⟩,
          ⟨TOK.WORD, "fór", [], none⟩] := by
  have h := (C5_duplicate_rule ⟨[], [], [], [], []⟩ ⟨TOK.WORD, "og", [], none⟩
    ⟨TOK.WORD, "og", [], none⟩ [⟨TOK.WORD, "fór", [], none⟩]).2 (by rfl)
  show Except.ok
      (pe_loop ⟨[], [], [], [], []⟩ ⟨TOK.WORD, "og", [], none⟩
        [⟨TOK.WORD, "og", [], none⟩, ⟨TOK.WORD, "fór", [], none⟩]) = _
  rw [h.1]
  rfl

/-- C5 counterexample: the claim states the rule fires exactly when both the
current and the lookahead token are word tokens.  Here the lookahead has a
non-word kind (0) and the same text, and the rule fires anyway - the code
only tests the current token's kind - so the "exactly when" of the claim is
false at this input. -/
theorem C5_counterexample :
    dup_cond ⟨[], [], [], [], []⟩ ⟨TOK.WORD, "man", [], none⟩
        ⟨0, "man", [], none⟩ = true ∧
    (0 : Nat) ≠ TOK.WORD ∧
    parse_errors ⟨[], [], [], [], []⟩
        [⟨TOK.WORD, "man", [], none⟩, ⟨0, "man", [], none⟩] =
      Except.ok
        [⟨TOK.WORD, "man", [],
          some ⟨"C001", "Endurtekið orð ('man') var fellt burt"⟩⟩] := by
  refine ⟨rfl, by decide, rfl⟩

/-- C6: every annotation list `annotate` returns is sorted by start index
ascending and, among equal starts, by end index descending: for all
positions i < j, `(start_i, -end_i) <= (start_j, -end_j)` lexicographically,
whatever annotation list the tree walk produced and in whatever order. -/
theorem C6_annotations_sorted (finder_anns : List Annotation) (sent : Sentence)
    (l : List Annotation) (h : annotate finder_anns sent = Except.ok l) :
    l.Pairwise
      (fun a b => a.start < b.start ∨ (a.start = b.start ∧ -a.stop ≤ -b.stop)) := by
  have hs : ∀ m : List Annotation, (annSortList m).Pairwise annLE :=
    fun m => List.sorted_insertionSort annLE m
  unfold annotate at h
  rcases h1 : tokenAnnotations 0 sent.tokens with e | ann <;> rw [h1] at h
  · cases h
  · rcases h2 : sent.deep_tree with _ | u <;> rw [h2] at h <;>
      injection h with h <;> subst h
    · exact (hs _).imp (fun {a b} hab => by
        simpa [annLE, neg_le_neg_iff] using hab)
    · exact (hs _).imp (fun {a b} hab => by
        simpa [annLE, neg_le_neg_iff] using hab)

/-- C6 witness: two finder annotations handed over in the wrong order
([2,2] before [2,5]) on a parsed one-token sentence; the returned list
places [2,5] first and satisfies the pairwise sort contract. -/
theorem C6_witness :
    List.Pairwise
      (fun a b : Annotation =>
        a.start < b.start ∨ (a.start = b.start ∧ -a.stop ≤ -b.stop))
      [⟨2, 5, "Y", "y"⟩, ⟨2, 2, "X", "x"⟩] :=
  C6_annotations_sorted [⟨2, 2, "X", "x"⟩, ⟨2, 5, "Y", "y"⟩]
    ⟨[⟨TOK.WORD, "a", [], none⟩], some ()⟩
    [⟨2, 5, "Y", "y"⟩, ⟨2, 2, "X", "x"⟩] (by rfl)

/-- C7 counterexample: the claim states that once a token carries an error,
no later attachment overwrites it.  Here a token carrying a Compound C001
error receives a second `set_error` and ends up carrying the new Spelling
error: the assignment is unconditional, last writer wins. -/
theorem C7_counterexample :
    ((⟨TOK.WORD, "a", [], some ⟨"C001", "x"⟩⟩ : CorrectToken).set_error
        ⟨"S002", "y"⟩).err = some ⟨"S002", "y"⟩ ∧
    (⟨"S002", "y"⟩ : Error) ≠ ⟨"C001", "x"⟩ :=
  ⟨rfl, by decide⟩

/-- C7 (amended): error attachment is last-writer-wins.  `set_error`
unconditionally replaces the token's error; `copy_error` from a single token
unconditionally copies that token's error field (even `None`, and even over
an existing error); `copy_error` from a list copies each element's error in
turn until a non-`None` one is found, so the receiver ends up with the first
error found in the list (or `None` if a nonempty list has none); and
`_Correct_TOK.Word` built over a list preserves exactly that first error. -/
theorem C7_error_attachment (t o : CorrectToken) (e : Error) (w : String)
    (m : List String) (ts : List CorrectToken) :
    ((t.set_error e).err = some e) ∧
    ((t.copy_error (Sum.inl o)).err = o.err) ∧
    ((t.copy_error (Sum.inr ts)).err =
      if ts.isEmpty then t.err else ts.findSome? CorrectToken.err) ∧
    ((Correct_TOK.Word w m (some (Sum.inr ts))).err =
      if ts.isEmpty then none else ts.findSome? CorrectToken.err) := by
  have key : ∀ (ts : List CorrectToken) (s : CorrectToken),
      (s.copy_error_list ts).err =
        if ts.isEmpty then s.err else ts.findSome? CorrectToken.err := by
    intro ts
    induction ts with
    | nil => intro s; rfl
    | cons u us ih =>
      intro s
      rcases hu : u.err with _ | eu
      · have h1 : (s.copy_error_from u).err = none := by
          simp [CorrectToken.copy_error_from, hu]
        have h2 := ih (s.copy_error_from u)
        simp only [CorrectToken.copy_error_list, h1, Option.isSome_none,
          Bool.false_eq_true, if_false, h2, List.findSome?_cons, hu]
        cases us <;> simp [h1]
      · have h1 : (s.copy_error_from u).err = some eu := by
          simp [CorrectToken.copy_error_from, hu]
        simp [CorrectToken.copy_error_list, h1, List.findSome?_cons, hu]
  refine ⟨rfl, rfl, key ts t, ?_⟩
  have h := key ts (CorrectToken.word w m)
  simpa [Correct_TOK.Word, CorrectToken.copy_error, CorrectToken.word] using h

/-- The part of a character list before its first underscore, as
`splitFirstUnd` computes it, is the longest underscore-free prefix. -/
theorem splitFirstUnd_base :
    ∀ l : List Char,
      (match splitFirstUnd l with
        | none => l
        | some p => p.1) = l.takeWhile (fun c => c != '_')
  | [] => rfl
  | c :: cs => by
    by_cases hc : c = '_'
    · subst hc
      simp [splitFirstUnd, List.takeWhile_cons]
    · have ih := splitFirstUnd_base cs
      rcases h : splitFirstUnd cs with _ | p <;> rw [h] at ih <;>
        simp [splitFirstUnd, hc, h, List.takeWhile_cons] <;> exact ih

/-- The base name `splitVariants` returns is the part of the name before the
first underscore. -/
theorem splitVariants_base (name : String) :
    (splitVariants name).1 = ⟨name.data.takeWhile (fun c => c != '_')⟩ := by
  unfold splitVariants
  have h := splitFirstUnd_base name.data
  rcases hs : splitFirstUnd name.data with _ | p <;> rw [hs] at h <;>
    exact congrArg String.mk h

/-- C8 (amended): every error-tagged, non-optional, non-interior nonterminal
node the Grammar Error Finder visits yields exactly one Annotation, spanning
the node's first-to-last covered token, whose code is "P_NT_" followed by
the nonterminal's base name (the part before the first "_" separator) with a
leading "Villa" prefix stripped - not "GRAMMAR_" followed by it, as the
claim stated. -/
theorem C8_nonterminal_code (cspaces : String → String)
    (tokens : List CorrectToken) (node : NTNode)
    (hint : node.is_interior = false)
    (hopt : node.nonterminal.is_optional = false)
    (htag : node.nonterminal.has_error_tag = true) :
    (visit_nonterminal cspaces tokens node).map
        (fun a => (a.start, a.stop, a.code)) =
      [((node.span.1 : Int), (node.span.2 : Int),
        "P_NT_" ++
          (if strStartsWith
              (⟨node.nonterminal.name.data.takeWhile (fun c => c != '_')⟩ : String)
              "Villa" = true then
            String.drop
              ⟨node.nonterminal.name.data.takeWhile (fun c => c != '_')⟩ 5
          else
            (⟨node.nonterminal.name.data.takeWhile (fun c => c != '_')⟩ : String)))] := by
  unfold visit_nonterminal
  rw [hint, hopt, htag]
  simp [splitVariants_base]

/-- C8 witness: the amended theorem applied to a concrete error-tagged node
named "VillaFjöldiHluti_et" spanning tokens 1-2: one annotation, spanning
[1, 2], code "P_NT_FjöldiHluti" (base name before the separator, "Villa"
stripped). -/
theorem C8_witness :
    (visit_nonterminal (fun s => s) []
        ⟨false, ⟨"VillaFjöldiHluti_et", false, true⟩, (1, 2)⟩).map
        (fun a => (a.start, a.stop, a.code)) =
      [((1 : Int), (2 : Int), "P_NT_FjöldiHluti")] := by
  have h := C8_nonterminal_code (fun s => s) []
    ⟨false, ⟨"VillaFjöldiHluti_et", false, true⟩, (1, 2)⟩ rfl rfl rfl
  exact h.trans (by rfl)

/-- C8 counterexample: the spec's own example node - a nonterminal tagged
"error" named "VillaAð" spanning token 3 with text "að".  The emitted code
is "P_NT_Að", not "GRAMMAR_Að" as the claim's "GRAMMAR_" prefix predicts. -/
theorem C8_counterexample :
    visit_nonterminal (fun s => s)
        [⟨TOK.WORD, "x", [], none⟩, ⟨TOK.WORD, "x", [], none⟩,
          ⟨TOK.WORD, "x", [], none⟩, ⟨TOK.WORD, "að", [], none⟩]
        ⟨false, ⟨"VillaAð", false, true⟩, (3, 3)⟩ =
      [⟨3, 3, "P_NT_Að", "'að' er sennilega ofaukið"⟩] ∧
    "P_NT_Að" ≠ "GRAMMAR_" ++ "Að" :=
  ⟨rfl, by decide⟩

/-- Wrapping both tokens of a pair changes no guard of the Token Correction
Phase (the guards read only `kind` and `txt`, which `from_token` keeps). -/
theorem noPat_from_token (d : Dicts) (t u : CorrectToken) (h : noPat d t u) :
    noPat d (CorrectToken.from_token t) (CorrectToken.from_token u) :=
  h

/-- On a stream where no correction pattern remains, the lookahead loop
takes the default branch at every step: each token is emitted (wrapped, so
with its error reset) and the final buffered token is emitted at
exhaustion. -/
theorem pe_loop_no_pattern (d : Dicts) :
    ∀ (rest : List CorrectToken) (t : CorrectToken),
      List.Chain' (noPat d) (t :: rest) →
      pe_loop d (CorrectToken.from_token t) rest =
        CorrectToken.from_token t :: rest.map CorrectToken.from_token
  | [], _, _ => rfl
  | u :: rest, t, h => by
    rcases List.chain'_cons.mp h with ⟨⟨hd, hw, hs⟩, h2⟩
    have ih := pe_loop_no_pattern d rest u h2
    rw [pe_loop]
    have hd' : dup_cond d (CorrectToken.from_token t)
        (CorrectToken.from_token u) = false := hd
    have hw' : wrong_cond d (CorrectToken.from_token t) = false := hw
    have hs' : split_cond d (CorrectToken.from_token t)
        (CorrectToken.from_token u) = false := hs
    simp only [hd', hw', hs', Bool.false_eq_true, if_false, ih, List.map_cons]

/-- C10 (amended): re-running the Token Correction Phase on a nonempty
stream in which no duplicate-word, wrong-compound or split-compound pattern
remains returns the same stream of tokens up to each token's kind, text and
value - but with every attached error reset to none, because re-wrapping
through `CorrectToken.from_token` does not copy the error field. -/
theorem C10_fixed_point_mod_errors (d : Dicts) (ts : List CorrectToken)
    (hne : ts ≠ []) (h : List.Chain' (noPat d) ts) :
    parse_errors d ts = Except.ok (ts.map CorrectToken.from_token) := by
  match ts, hne with
  | t :: rest, _ =>
    show Except.ok (pe_loop d (CorrectToken.from_token t) rest) = _
    rw [pe_loop_no_pattern d rest t h]
    rfl

/-- C10 witness: the amended theorem applied to the pattern-free one-token
output of the duplicate rule - re-running returns the same kind, text and
value with the C001 error stripped. -/
theorem C10_witness :
    parse_errors ⟨[], [], [], [], []⟩
        [⟨TOK.WORD, "og", [],
          some ⟨"C001", "Endurtekið orð ('og') var fellt burt"⟩⟩] =
      Except.ok [⟨TOK.WORD, "og", [], none⟩] :=
  C10_fixed_point_mod_errors ⟨[], [], [], [], []⟩
    [⟨TOK.WORD, "og", [],
      some ⟨"C001", "Endurtekið orð ('og') var fellt burt"⟩⟩]
    (by simp) (List.chain'_singleton _)

/-- C10 counterexample: the phase's own output for input "og og" is the
single surviving token carrying C001; no pattern remains in it, yet
re-running the phase does not return it unchanged - the attached error is
stripped by the re-wrapping, so the phase is not a fixed point including
each token's attached error, as the claim states. -/
theorem C10_counterexample :
    parse_errors ⟨[], [], [], [], []⟩
        [⟨TOK.WORD, "og", [], none⟩, ⟨TOK.WORD, "og", [], none⟩] =
      Except.ok
        [⟨TOK.WORD, "og", [],
          some ⟨"C001", "Endurtekið orð ('og') var fellt burt"⟩⟩] ∧
    List.Chain' (noPat ⟨[], [], [], [], []⟩)
      [⟨TOK.WORD, "og", [],
        some ⟨"C001", "Endurtekið orð ('og') var fellt burt"⟩⟩] ∧
    parse_errors ⟨[], [], [], [], []⟩
        [⟨TOK.WORD, "og", [],
          some ⟨"C001", "Endurtekið orð ('og') var fellt burt"⟩⟩] =
      Except.ok [⟨TOK.WORD, "og", [], none⟩] ∧
    (⟨TOK.WORD, "og", [], none⟩ : CorrectToken) ≠
      ⟨TOK.WORD, "og", [],
        some ⟨"C001", "Endurtekið orð ('og') var fellt burt"⟩⟩ :=
  ⟨rfl, List.chain'_singleton _, rfl, by decide⟩

end GreynirCorrect
